import Mathlib

/-!
A shallow embedding of the wishlist application's core
(`src/wishlist/wishlist.py`, `src/wishlist/validator.py`, and the routes of
`src/app.py` the claims cite), with theorems settling the frozen claims.

Python strings are modelled as `List Char` (`Str`).  The pieces of the
Python standard library the code leans on (`unicodedata.normalize('NFC', _)`,
the forbidden-category table, `str.isspace`, `urllib`'s URL normalisation and
`email.headerregistry.Address.addr_spec`) are bundled into a `UModel`
parameter: every universal theorem quantifies over the model, and concrete
instances used in counterexamples and witnesses state, in comments, the
real Unicode facts they encode.  Exceptions become an `Err` sum type and
the sqlite tables become association lists.
-/

deriving instance DecidableEq for Except

namespace WishlistPy

/-- A Python `str`, as its sequence of code points. -/
abbrev Str := List Char

/-- The exceptions raised by the embedded code.  `typeError`, `valueError`
and `attribute errors` of the Python runtime are folded in beside the
application's own exception classes from `wishlist.py`. -/
inductive Err where
  /-- Python `TypeError` (e.g. `None[:256]`, `None > 0`). -/
  | typeError
  /-- `MissingRequiredParameterError` -/
  | missingRequiredParameter
  /-- `InvalidParameter` -/
  | invalidParameter
  /-- `InvalidEmailError` -/
  | invalidEmail
  /-- Python `ValueError` (e.g. `uuid.UUID` on a malformed string). -/
  | valueError
  /-- `InvalidShareToken` -/
  | invalidShareToken
  /-- `InvalidManageToken` -/
  | invalidManageToken
  /-- `UnverifiedWishlist` -/
  | unverifiedWishlist
  /-- `WishlistNotFoundError` -/
  | wishlistNotFound
  /-- `RateLimitError` -/
  | rateLimit
  /-- `mark_item` dereferencing the `None` returned by `get_wishlist_item`
  for an absent item (an `AttributeError` at runtime). -/
  | itemMissing
  /-- `mark_item`'s `Exception("You cannot modify the status of an item you
  didn't get!")`. -/
  | cannotModify
deriving DecidableEq, Repr

/-- The external text facilities `validator.py` imports: `unicodedata`'s NFC
normalisation, the forbidden-category table built from
`unicodedata.category`, Python's `str.isspace`, `validator.normalize_url`'s
`urllib` core, and `Address(addr_spec=_).addr_spec`.  Kept abstract so the
theorems hold for the real tables; concrete instances below pin the facts
counterexamples need. -/
structure UModel where
  /-- `unicodedata.normalize('NFC', s)` -/
  nfc : Str → Str
  /-- membership in `FORBIDDEN_UNICODE_CHARACTERS`: the character's Unicode
  category is one of Cc, Cf, Cs, Co, Cn, Zp, Zl, Mn, Mc, Me
  (validator.py lines 22-26). -/
  forbidden : Char → Bool
  /-- Python `str.isspace`, the class `str.strip()` removes. -/
  pyspace : Char → Bool
  /-- `validator.normalize_url`: `some u` on success, `none` when it raises
  `ValueError("Not a URL: Cannot normalize")`. -/
  normUrl : Str → Option Str
  /-- `Address(addr_spec=a).addr_spec` from `email.headerregistry`. -/
  addrSpec : Str → Str

/-- Python `s.strip()`: drop leading and trailing whitespace. -/
def pyStrip (u : UModel) (s : Str) : Str :=
  ((s.dropWhile u.pyspace).reverse.dropWhile u.pyspace).reverse

/-- `validator.sanitize_unicode`: NFC-normalise, then delete the characters
of the forbidden categories (`input.translate(FORBIDDEN_UNICODE_CHARACTERS)`). -/
def sanitize_unicode (u : UModel) (s : Str) : Str :=
  (u.nfc s).filter (fun c => ! u.forbidden c)

/-- `validator.normalize_words`: truncate to `maxLength` code points, strip
whitespace, then `sanitize_unicode`. -/
def normalize_words (u : UModel) (s : Str) (maxLength : Nat := 256) : Str :=
  sanitize_unicode u (pyStrip u (s.take maxLength))

/-- Python `s.split(sep)` for a one-character separator: never returns an
empty list (`"".split('@') == [""]`). -/
def splitOnChar (sep : Char) : Str → List Str
  | [] => [[]]
  | c :: rest =>
    match splitOnChar sep rest with
    | [] => [[]]
    | piece :: pieces =>
      if c = sep then [] :: piece :: pieces else (c :: piece) :: pieces

/-- ASCII letters and digits, the class `[a-z0-9]` under
`re.IGNORECASE | re.ASCII`. -/
def isAsciiAlnum (c : Char) : Bool :=
  ('a' ≤ c && c ≤ 'z') || ('A' ≤ c && c ≤ 'Z') || ('0' ≤ c && c ≤ '9')

/-- The characters `[a-z\d-]` of the hostname-label pattern. -/
def isHostChar (c : Char) : Bool :=
  isAsciiAlnum c || c = '-'

/-- Python's `$` anchor matches at the end of the string or just before one
final newline; regex matching below therefore works on the string with one
trailing `'\n'` removed. -/
def dropFinalNewline (s : Str) : Str :=
  match s.getLast? with
  | some c => if c = '\n' then s.dropLast else s
  | none => s

/-- `re.match("(?!-)[a-z\d-]{1,63}(?<!-)$", label, re.IGNORECASE|re.ASCII)`
as a predicate: 1 to 63 characters from `[A-Za-z0-9-]`, neither starting nor
ending with `-` (modulo the `$`-before-final-newline allowance). -/
def label_ok (s : Str) : Bool :=
  let core := dropFinalNewline s
  decide (1 ≤ core.length) && decide (core.length ≤ 63) &&
    core.all isHostChar &&
    !(core.head? == some '-') && !(core.getLast? == some '-')

/-- `validator.is_valid_hostname`: reject over 255 characters, strip one
trailing dot, and require every dot-separated label to match. -/
def is_valid_hostname (s : Str) : Bool :=
  if s.length > 255 then false
  else
    let t := match s.getLast? with
      | some c => if c = '.' then s.dropLast else s
      | none => s
    (splitOnChar '.' t).all label_ok

/-- `re.match("(?![^a-z0-9]).+(?<![^a-z0-9])$", s, re.IGNORECASE|re.ASCII)`:
non-empty, no interior newline (`.` never matches `'\n'`), first and last
characters ASCII alphanumeric (again modulo the trailing-newline allowance
of `$`). -/
def local_part_ok (s : Str) : Bool :=
  let core := dropFinalNewline s
  !core.isEmpty && core.all (fun c => !(c == '\n')) &&
    (match core.head? with
     | some c => isAsciiAlnum c
     | none => false) &&
    (match core.getLast? with
     | some c => isAsciiAlnum c
     | none => false)

/-- `validator.is_email`: normalise, split on `'@'` into exactly two parts,
then check the domain as a hostname and the local part against the
username pattern. -/
def is_email (u : UModel) (s : Str) : Bool :=
  match splitOnChar '@' (normalize_words u s) with
  | [localPart, domain] => is_valid_hostname domain && local_part_ok localPart
  | _ => false

/-! ## Entity model (`WishlistItem`, `Wishlist`) -/

/-- A `WishlistItem` (wishlist.py lines 93-132).  `id` holds
`str(self._id)`; `getter` is `None` or a session id. -/
structure WItem where
  id : Str
  name : Str
  url : Str
  description : Str
  gotten : Bool
  getter : Option Str
deriving DecidableEq, Repr

/-- A `Wishlist` (wishlist.py lines 135-192).  `items` is the `self.items`
dictionary, in insertion order. -/
structure Wishlist where
  id : Str
  name : Str
  username : Str
  email : Str
  email_verified : Bool
  owner_token : Str
  share_token : Str
  items : List WItem
deriving DecidableEq, Repr

/-- Hex digits, upper or lower case. -/
def isHexChar (c : Char) : Bool :=
  ('0' ≤ c && c ≤ '9') || ('a' ≤ c && c ≤ 'f') || ('A' ≤ c && c ≤ 'F')

/-- `str(uuid.UUID(s))` restricted to the hyphenated 8-4-4-4-12 hex form —
the only shape this system ever stores, since every id it writes is
`str(uuid.uuid4())`.  Returns the lower-cased canonical string, or `none`
when `uuid.UUID` would raise `ValueError`.  (The stdlib also accepts
braced/urn/32-hex spellings; nothing in the repository produces those.) -/
def pyUUIDparse (s : Str) : Option Str :=
  match splitOnChar '-' s with
  | [a, b, c, d, e] =>
    if a.length = 8 && b.length = 4 && c.length = 4 && d.length = 4 &&
        e.length = 12 && (a ++ b ++ c ++ d ++ e).all isHexChar then
      some (s.map Char.toLower)
    else none
  | _ => none

/-- The `if not id: uuid4() else: UUID(id)` idiom shared by both
constructors: `none` and the empty string are falsy and draw the fresh
value; anything else must parse. -/
def resolveId (fresh : Str) (id : Option Str) : Except Err Str :=
  match id with
  | none => .ok fresh
  | some s =>
    if s.isEmpty then .ok fresh
    else
      match pyUUIDparse s with
      | some c => .ok c
      | none => .error .valueError

/-- The `if not token: secrets.token_urlsafe(32) else: token` idiom of the
`Wishlist` constructor. -/
def resolveToken (fresh : Str) (t : Option Str) : Str :=
  match t with
  | none => fresh
  | some s => if s.isEmpty then fresh else s

/-- `WishlistItem.__init__` lines 115-121: a `None` or empty url becomes
`""`; a non-empty one must normalise, else `InvalidParameter`. -/
def resolveUrl (u : UModel) (url : Option Str) : Except Err Str :=
  match url with
  | none => .ok []
  | some v =>
    if v.length > 0 then
      match u.normUrl v with
      | some w => .ok w
      | none => .error .invalidParameter
    else .ok []

/-- `WishlistItem.__init__` (wishlist.py lines 96-125).  `freshId` stands
for the `uuid.uuid4()` drawn when no id is given.  Steps in source order:
id, then the required name, then the url, then
`self.description = validator.normalize_words(description)` — which, for an
absent (`None`) description, evaluates `None[:256]` and raises `TypeError`.
`gotten` and `getter` are stored verbatim. -/
def mkWishlistItem (u : UModel) (freshId : Str) (id : Option Str)
    (name : Option Str) (url : Option Str) (description : Option Str)
    (gotten : Bool) (getter : Option Str) : Except Err WItem :=
  match resolveId freshId id with
  | .error e => .error e
  | .ok theId =>
    match name with
    | none => .error .missingRequiredParameter
    | some n =>
      match resolveUrl u url with
      | .error e => .error e
      | .ok theUrl =>
        match description with
        | none => .error .typeError
        | some d =>
          .ok ⟨theId, normalize_words u n, theUrl, normalize_words u d,
            gotten, getter⟩

/-- `Wishlist.__init__` (wishlist.py lines 137-173).  Steps in source
order: `self.name = normalize_words(name)` and
`self.username = normalize_words(username)` — each raising `TypeError` via
`None[:256]` when the argument is `None` — then the email check
(`MissingRequiredParameterError` when absent, `InvalidEmailError` when
invalid), then id and the two tokens.  `freshId`, `freshOwner` and
`freshShare` stand for the random values drawn for falsy arguments. -/
def mkWishlist (u : UModel) (freshId freshOwner freshShare : Str)
    (id : Option Str) (name : Option Str) (username : Option Str)
    (email : Option Str) (email_verified : Bool)
    (owner_token : Option Str) (share_token : Option Str) :
    Except Err Wishlist :=
  match name with
  | none => .error .typeError
  | some n =>
    match username with
    | none => .error .typeError
    | some un =>
      match email with
      | none => .error .missingRequiredParameter
      | some e =>
        if is_email u e then
          match resolveId freshId id with
          | .error er => .error er
          | .ok theId =>
            .ok ⟨theId, normalize_words u n, normalize_words u un, e,
              email_verified, resolveToken freshOwner owner_token,
              resolveToken freshShare share_token, []⟩
        else .error .invalidEmail

/-- `Wishlist.get_addr` (wishlist.py lines 187-192). -/
def Wishlist.get_addr (w : Wishlist) : Str :=
  if w.email = "<>".toList then [] else w.email

/-! ## Persistence store (`WishlistDB`) -/

/-- A row of the `wishlist` table (schema, wishlist.py line 209; the
`added` column is never read back). -/
structure WRow where
  id : Str
  name : Str
  username : Str
  email : Str
  email_verified : Bool
  owner_token : Str
  share_token : Str
deriving DecidableEq, Repr

/-- The `wishlist` table, in insertion order. -/
abbrev WTable := List WRow

/-- The `wishlist_item` table: each row is `(wishlist_id, item columns)`.
The item columns reuse `WItem` as a record of
`id, name, url, description, gotten, getter`. -/
abbrev ITable := List (Str × WItem)

/-- `WishlistDB.add_wishlist` (lines 389-402): the INSERT names only
`id, name, username, email, owner_token, share_token`, so the
`email_verified` column takes its schema default of 0 (false); the email
column receives `get_addr`. -/
def add_wishlist (t : WTable) (w : Wishlist) : WTable :=
  t ++ [⟨w.id, w.name, w.username, w.get_addr, false, w.owner_token,
    w.share_token⟩]

/-- `WishlistDB.add_items` (lines 378-387): each item is JSON-encoded and
decoded (the identity on these fields) and inserted with the given
wishlist id. -/
def add_items (t : ITable) (wishlist_id : Str) (items : List WItem) : ITable :=
  t ++ items.map (fun i => (wishlist_id, i))

/-- `WishlistDB.wishitem_factory` (lines 236-244): rebuild a `WishlistItem`
from a row — running the full constructor again. -/
def row_to_item (u : UModel) (r : WItem) : Except Err WItem :=
  mkWishlistItem u [] (some r.id) (some r.name) (some r.url)
    (some r.description) r.gotten r.getter

/-- The loop of `WishlistDB.get_wishlist_items` over fetched rows. -/
def rows_to_items (u : UModel) : List WItem → Except Err (List WItem)
  | [] => .ok []
  | r :: rs =>
    match row_to_item u r with
    | .error e => .error e
    | .ok i =>
      match rows_to_items u rs with
      | .error e => .error e
      | .ok more => .ok (i :: more)

/-- `WishlistDB.get_wishlist_items` (lines 316-333): all rows of the
wishlist, each through the item factory, keyed in insertion order. -/
def get_wishlist_items (u : UModel) (t : ITable) (wishlist_id : Str) :
    Except Err (List WItem) :=
  rows_to_items u ((t.filter (fun r => r.1 == wishlist_id)).map (·.2))

/-- `WishlistDB.get_wishlist_item` (lines 300-314):
`SELECT ... WHERE id = ? and wishlist_id = ?`, `fetchone` giving the `None`
sentinel when no row matches, otherwise the row through the item factory. -/
def get_wishlist_item (u : UModel) (t : ITable) (wishlist_id item_id : Str) :
    Except Err (Option WItem) :=
  match t.find? (fun r => r.2.id == item_id && r.1 == wishlist_id) with
  | none => .ok none
  | some r =>
    match row_to_item u r.2 with
    | .error e => .error e
    | .ok i => .ok (some i)

/-- `WishlistDB.get_wishlist` (lines 278-298): fetch the row
(`WishlistNotFoundError` when absent), rebuild the `Wishlist` through its
constructor via `wishlist_factory`, then attach the freshly loaded items. -/
def get_wishlist (u : UModel) (t : WTable) (items : ITable) (wishlist_id : Str) :
    Except Err Wishlist :=
  match t.find? (fun r => r.id == wishlist_id) with
  | none => .error .wishlistNotFound
  | some r =>
    match mkWishlist u [] [] [] (some r.id) (some r.name) (some r.username)
        (some r.email) r.email_verified (some r.owner_token)
        (some r.share_token) with
    | .error e => .error e
    | .ok w =>
      match get_wishlist_items u items wishlist_id with
      | .error e => .error e
      | .ok its => .ok { w with items := its }

/-- `WishlistDB.update_wishlist_item` (lines 335-359):
`UPDATE wishlist_item SET name, url, description, gotten, getter WHERE id = ?`
— matched on the item id alone, leaving `id` and `wishlist_id` columns. -/
def update_wishlist_item (t : ITable) (item : WItem) : ITable :=
  t.map (fun r =>
    if r.2.id == item.id then
      (r.1, { r.2 with
                name := item.name,
                url := item.url,
                description := item.description,
                gotten := item.gotten,
                getter := item.getter })
    else r)

/-- `WishlistDB.remove_wishlist_item` (lines 361-376): executes the DELETE
and falls off the end — the table shrinks but the Python function returns
`None`, which the second component records. -/
def remove_wishlist_item (t : ITable) (item_id wishlist_id : Str) :
    ITable × Option Nat :=
  (t.filter (fun r => !(r.2.id == item_id && r.1 == wishlist_id)), none)

/-- `WishlistDB.mark_valid_email` (lines 434-439):
`UPDATE wishlist SET email_verified = 1 WHERE id = ?`, committed at once by
its own `self.save()`. -/
def mark_valid_email (t : WTable) (wishlist_id : Str) : WTable :=
  t.map (fun r => if r.id == wishlist_id then { r with email_verified := true }
    else r)

/-! ## Authorization and reservation engine -/

/-- Module-level `verify_share_token` (wishlist.py lines 541-543): raises
`InvalidShareToken` when the token differs from the wishlist's share token;
otherwise returns with no further check of any kind. -/
def verify_share_token (w : Wishlist) (token : Str) : Except Err Unit :=
  if w.share_token ≠ token then .error .invalidShareToken else .ok ()

/-- Module-level `verify_manage_token` (wishlist.py lines 545-553): raises
`InvalidManageToken` on a mismatch, touching nothing; on a match, when the
wishlist is not yet verified, persists `email_verified = 1` through
`mark_valid_email` (which commits) and flips the in-memory flag.  Returns
the updated wishlist object and `wishlist` table. -/
def verify_manage_token (w : Wishlist) (token : Str) (t : WTable) :
    Except Err (Wishlist × WTable) :=
  if ¬ (w.owner_token = token) then .error .invalidManageToken
  else if ¬ w.email_verified then
    .ok ({ w with email_verified := true }, mark_valid_email t w.id)
  else .ok (w, t)

/-- Module-level `mark_item` (wishlist.py lines 492-507).  Loads the item
(the `None` sentinel for an absent row is dereferenced by the branch
conditions, an `AttributeError` at runtime, modelled as `itemMissing`);
releasing (`gotten = false`) demands the caller's session own the claim;
claiming (`gotten = true`) overwrites unconditionally.  The updated item is
written back through `update_wishlist_item` and committed. -/
def mark_item (u : UModel) (t : ITable) (wishlist_id item_id session_id : Str)
    (gotten : Bool) : Except Err ITable :=
  match get_wishlist_item u t wishlist_id item_id with
  | .error e => .error e
  | .ok none => .error .itemMissing
  | .ok (some item) =>
    if gotten = false ∧ item.getter ≠ some session_id then
      .error .cannotModify
    else if gotten = false ∧ item.getter = some session_id then
      .ok (update_wishlist_item t { item with gotten := false, getter := none })
    else
      .ok (update_wishlist_item t
        { item with gotten := true, getter := some session_id })

/-- Module-level `remove_item` (wishlist.py lines 518-525): calls
`remove_wishlist_item`, which returns `None`, then evaluates
`n_deleted > 0` — in Python a `TypeError`, since `None` and `int` do not
compare.  The deletion itself has already happened and been committed. -/
def remove_item (t : ITable) (id wishlist_id : Str) :
    Except Err (ITable × Bool) :=
  let p := remove_wishlist_item t id wishlist_id
  match p.2 with
  | none => .error .typeError
  | some n => .ok (p.1, decide (0 < n))

/-- The `mark_wishlist_item` route (app.py lines 224-244), its session
bootstrap aside: load the wishlist, check the supplied token with
`verify_share_token` alone — no `email_verified` gate — then `mark_item`. -/
def mark_wishlist_item_route (u : UModel) (wt : WTable) (it : ITable)
    (wishlist_id item_id token session_id : Str) (gotten : Bool) :
    Except Err ITable :=
  match get_wishlist u wt it wishlist_id with
  | .error e => .error e
  | .ok w =>
    match verify_share_token w token with
    | .error e => .error e
    | .ok _ => mark_item u it wishlist_id item_id session_id gotten

/-! ## Email rate limiting

`email_record.sent_time` is filled by sqlite's `CURRENT_TIMESTAMP`
(`"YYYY-MM-DD HH:MM:SS"`, UTC); `check_mail_limit` compares that TEXT
column against `datetime.datetime.now(datetime.UTC) - timedelta(minutes=5)`
rendered by `datetime.isoformat()` (`"YYYY-MM-DDTHH:MM:SS[.ffffff]+00:00"`).
sqlite compares TEXT by memcmp, which on these ASCII strings is
code-point-lexicographic, so both renderings are embedded exactly. -/

/-- A UTC timestamp, split into the fields both renderings print. -/
structure DT where
  year : Nat
  month : Nat
  day : Nat
  hour : Nat
  minute : Nat
  second : Nat
  micro : Nat
deriving DecidableEq, Repr

/-- Decimal digits of a `Nat`. -/
def natStr (n : Nat) : Str := (toString n).toList

/-- Zero-pad to two digits. -/
def pad2 (n : Nat) : Str := if n < 10 then '0' :: natStr n else natStr n

/-- Zero-pad to four digits (years of interest are already four digits). -/
def pad4 (n : Nat) : Str :=
  if n < 10 then '0' :: '0' :: '0' :: natStr n
  else if n < 100 then '0' :: '0' :: natStr n
  else if n < 1000 then '0' :: natStr n
  else natStr n

/-- Zero-pad to six digits, for microseconds. -/
def pad6 (n : Nat) : Str :=
  let d := natStr n
  List.replicate (6 - d.length) '0' ++ d

/-- sqlite `CURRENT_TIMESTAMP`: `"YYYY-MM-DD HH:MM:SS"`. -/
def sqliteTimestamp (d : DT) : Str :=
  pad4 d.year ++ ['-'] ++ pad2 d.month ++ ['-'] ++ pad2 d.day ++ [' '] ++
    pad2 d.hour ++ [':'] ++ pad2 d.minute ++ [':'] ++ pad2 d.second

/-- `datetime.isoformat()` of an aware UTC datetime:
`"YYYY-MM-DDTHH:MM:SS"`, the microseconds only when non-zero, then
`"+00:00"`. -/
def pyIsoformat (d : DT) : Str :=
  pad4 d.year ++ ['-'] ++ pad2 d.month ++ ['-'] ++ pad2 d.day ++ ['T'] ++
    pad2 d.hour ++ [':'] ++ pad2 d.minute ++ [':'] ++ pad2 d.second ++
    (if d.micro = 0 then [] else '.' :: pad6 d.micro) ++ "+00:00".toList

/-- memcmp order on ASCII strings: code-point lexicographic `≤`. -/
def strLe : Str → Str → Bool
  | [], _ => true
  | _ :: _, [] => false
  | a :: as, b :: bs => if a = b then strLe as bs else decide (a < b)

/-- Lexicographic order on lists of numbers. -/
def natListLe : List Nat → List Nat → Bool
  | [], _ => true
  | _ :: _, [] => false
  | a :: as, b :: bs => if a = b then natListLe as bs else decide (a < b)

/-- Chronological order on split UTC timestamps: the fields compared
lexicographically, year first — exactly calendar order. -/
def dtLe (a b : DT) : Bool :=
  natListLe [a.year, a.month, a.day, a.hour, a.minute, a.second, a.micro]
    [b.year, b.month, b.day, b.hour, b.minute, b.second, b.micro]

/-- The `email_record` table: `(email, sent_time)` rows, `sent_time` as the
TEXT sqlite stored. -/
abbrev EmailLog := List (Str × Str)

/-- `WishlistDB.sent_email` (lines 463-468) at a given clock reading:
append the row with `sent_time = CURRENT_TIMESTAMP`. -/
def sent_email (log : EmailLog) (email : Str) (at_time : DT) : EmailLog :=
  log ++ [(email, sqliteTimestamp at_time)]

/-- `WishlistDB.recent_email_count` (lines 470-475):
`SELECT count(1) FROM email_record WHERE email = ? and sent_time >= ?`,
the bound rendered by `since.isoformat()`. -/
def recent_email_count (log : EmailLog) (email : Str) (since : DT) : Nat :=
  (log.filter (fun e => e.1 == email && strLe (pyIsoformat since) e.2)).length

/-- Module-level `check_mail_limit` (wishlist.py lines 561-569): reject an
invalid address with `InvalidEmailError`; then, with
`since = now - timedelta(minutes=5)`, raise `RateLimitError` when
`recent_email_count` exceeds 1.  `since` is taken here as the already
computed bound (`datetime` subtraction is the standard library's); the
address is funnelled through `Address(addr_spec=...).addr_spec`. -/
def check_mail_limit (u : UModel) (log : EmailLog) (since : DT)
    (email_addr : Str) : Except Err Unit :=
  if ¬ is_email u email_addr then .error .invalidEmail
  else if recent_email_count log (u.addrSpec email_addr) since > 1 then
    .error .rateLimit
  else .ok ()

/-! ## Concrete instances of the external-library model

`asciiU` pins the external functions on ASCII input, where the real
behaviour is simple and documented: NFC is the identity on ASCII text; of
the forbidden categories only Cc (the C0 controls and DEL) occurs below
U+0080; `str.isspace` holds exactly of code points 9-13, 28-31 and 32; and
`Address(addr_spec=a).addr_spec` returns a dot-atom address unchanged.
`normUrl` is never consulted by any concrete input used here (all have an
absent or empty url), so it conservatively rejects. -/

/-- Python `str.isspace` on the ASCII range. -/
def asciiSpace (c : Char) : Bool :=
  (9 ≤ c.toNat && c.toNat ≤ 13) || (28 ≤ c.toNat && c.toNat ≤ 32)

/-- The forbidden categories restricted to ASCII: the Cc controls. -/
def asciiForbidden (c : Char) : Bool :=
  c.toNat < 32 || c.toNat == 127

/-- The external-library model on ASCII strings. -/
def asciiU : UModel :=
  ⟨id, asciiForbidden, asciiSpace, fun _ => none, id⟩

/-- U+0301 COMBINING ACUTE ACCENT — Unicode category Mn, hence in
`FORBIDDEN_UNICODE_CHARACTERS`. -/
def combAcute : Char := Char.ofNat 0x0301

/-- U+00E9 LATIN SMALL LETTER E WITH ACUTE — category Ll, not forbidden. -/
def eAcute : Char := Char.ofNat 0x00E9

/-- NFC on strings over `{'e', U+0301, U+00E9}`: the canonical composition
`e + U+0301 → U+00E9` (a fact of the Unicode composition tables); nothing
else composes among these characters. -/
def nfcAcute : Str → Str
  | [] => []
  | [c] => [c]
  | c :: d :: rest =>
    if c = 'e' ∧ d = combAcute then eAcute :: nfcAcute rest
    else c :: nfcAcute (d :: rest)

/-- The external-library model on ASCII text extended with the combining
acute accent: U+0301 is category Mn (forbidden), U+00E9 is Ll (kept). -/
def acuteU : UModel :=
  ⟨nfcAcute, fun c => asciiForbidden c || c == combAcute, asciiSpace,
    fun _ => none, id⟩

/-! ## Claim C8 — `normalize_words`'s pipeline -/

/-- The stage order claim C8 states, written from the spec's words:
truncate to `maxLength`, trim whitespace, remove every forbidden-category
character, *and then* NFC-normalise. -/
def claimed_normalize_words (u : UModel) (s : Str) (maxLength : Nat := 256) :
    Str :=
  u.nfc ((pyStrip u (s.take maxLength)).filter (fun c => ! u.forbidden c))

/-- C8 counterexample: on the two-character string `e` + U+0301 COMBINING
ACUTE ACCENT, the code's pipeline NFC-composes first (giving U+00E9, which
is kept), while the claim's order deletes the combining mark (category Mn)
first and then has nothing to compose (giving plain `e`).  `acuteU` encodes
exactly the real Unicode facts involved. -/
theorem normalize_words_stage_order_cex :
    normalize_words acuteU ['e', combAcute] ≠
      claimed_normalize_words acuteU ['e', combAcute] := by decide

/-- C8 (amended): `normalize_words(s, m)` equals applying, in this order,
truncation of `s` to `m` characters, whitespace trimming, NFC
normalisation, and then removal of every character of the forbidden
categories — NFC runs before the removal, not after it. -/
theorem normalize_words_stages (u : UModel) (s : Str) (m : Nat) :
    normalize_words u s m =
      (u.nfc (pyStrip u (s.take m))).filter (fun c => ! u.forbidden c) := rfl

/-! ## Claim C10 — a `Wishlist` needs a username -/

/-- C10: however the other arguments are chosen — the email may be present
and valid — constructing a `Wishlist` with `username` absent fails, and
with the `TypeError` from `normalize_words(None)`, never with one of the
email errors (`MissingRequiredParameterError` / `InvalidEmailError`): the
failure happens before the email check is reached, so no `Wishlist` is ever
created without a username. -/
theorem wishlist_requires_username (u : UModel) (fid fot fst : Str)
    (id : Option Str) (name : Option Str) (email : Option Str) (ev : Bool)
    (ot st : Option Str) :
    mkWishlist u fid fot fst id name none email ev ot st =
      .error .typeError := by
  cases name <;> rfl

/-! ## Claim C6 — `WishlistItem` construction with the defaults -/

/-- C6 (code bug): a `WishlistItem` constructed with a name but with the
`description` argument left at its default `None` does not succeed with
defaults — `self.description = validator.normalize_words(description)`
evaluates `None[:256]` and raises `TypeError`, for every external-library
model and fresh id. -/
theorem wishlist_item_default_description_crash (u : UModel) (fid : Str)
    (gotten : Bool) (getter : Option Str) :
    mkWishlistItem u fid none (some "gift".toList) none none gotten getter =
      .error .typeError := rfl

/-! ## Claim C9 — `remove_item`'s return value -/

/-- C9 (code bug): `remove_item` never reports whether a row was removed.
`remove_wishlist_item` executes the DELETE but returns `None`, so
`remove_item`'s `if n_deleted > 0` compares `None` with `0` and raises
`TypeError` — on every table and pair of ids, whether or not the item
existed. -/
theorem remove_item_always_type_error (t : ITable) (id wishlist_id : Str) :
    remove_item t id wishlist_id = .error .typeError := rfl

/-! ## Claim C5 — the mail rate limit -/

/-- Three sends to the same address inside five minutes, as sqlite stamps
them. -/
def mailTimes : List DT :=
  [⟨2024, 10, 12, 9, 0, 0, 0⟩, ⟨2024, 10, 12, 9, 0, 30, 0⟩,
    ⟨2024, 10, 12, 9, 1, 0, 0⟩]

/-- The `email_record` rows those sends leave behind. -/
def mailLog : EmailLog :=
  mailTimes.foldl (fun l d => sent_email l "a@b.cd".toList d) []

/-- The window bound five minutes before a check at 09:01:30 the same
day. -/
def mailSince : DT := ⟨2024, 10, 12, 8, 56, 30, 0⟩

/-- C5 (code bug): all three recorded sends lie chronologically inside the
trailing five-minute window (each is ≥ `mailSince`), yet
`recent_email_count` sees none of them — sqlite's
`"YYYY-MM-DD HH:MM:SS"` rows compare below the
`"YYYY-MM-DDTHH:MM:SS+00:00"` bound at the `' ' < 'T'` position — so the
third `check_mail_limit` passes instead of raising `RateLimitError`. -/
theorem check_mail_limit_never_fires :
    (∀ d ∈ mailTimes, dtLe mailSince d = true) ∧ mailLog.length = 3 ∧
      recent_email_count mailLog "a@b.cd".toList mailSince = 0 ∧
      check_mail_limit asciiU mailLog mailSince "a@b.cd".toList = .ok () := by
  decide

/-! ## Claim C1 — the share-token check -/

/-- An unverified wishlist's row, as `add`/`verify` leave it. -/
def c1row : WRow :=
  ⟨"aaaaaaaa-aaaa-4aaa-8aaa-aaaaaaaaaaaa".toList, "My Wishlist".toList,
    "alice".toList, "a@b.cd".toList, false, "owner-tok".toList,
    "share-tok".toList⟩

/-- One unclaimed item on that wishlist. -/
def c1item : WItem :=
  ⟨"bbbbbbbb-bbbb-4bbb-8bbb-bbbbbbbbbbbb".toList, "gift".toList, [], [],
    false, none⟩

/-- The item table holding it. -/
def c1items : ITable := [(c1row.id, c1item)]

/-- C1 counterexample: on the wishlist loaded from `c1row` —
`email_verified` still false — presenting the matching share token does not
fail with `UnverifiedWishlist`: `verify_share_token` returns, and the whole
`mark_wishlist_item` route (an operation requiring the share token) runs to
completion and claims the item.  This refutes the claim that with
`email_verified` false every share-token operation fails with
`UnverifiedWishlist` and that the check succeeds only once it is true. -/
theorem share_token_unverified_cex :
    (get_wishlist asciiU [c1row] c1items c1row.id).map
        (fun w => (w.email_verified, verify_share_token w "share-tok".toList)) =
      .ok (false, .ok ()) ∧
    mark_wishlist_item_route asciiU [c1row] c1items c1row.id c1item.id
        "share-tok".toList "sess-1".toList true =
      .ok [(c1row.id,
        { c1item with gotten := true, getter := some "sess-1".toList })] := by
  constructor
  · decide
  · decide

/-- C1 (amended): `verify_share_token` fails with `InvalidShareToken`
exactly when the candidate token differs from `share_token`, and succeeds
whenever they are equal — regardless of `email_verified`, which it never
consults (the only `UnverifiedWishlist` gate in the application sits in the
separate items-listing route, not in this check or the mark route). -/
theorem verify_share_token_spec (w : Wishlist) (t : Str) :
    (t = w.share_token → verify_share_token w t = .ok ()) ∧
    (t ≠ w.share_token →
      verify_share_token w t = .error .invalidShareToken) := by
  constructor
  · intro h
    simp [verify_share_token, h]
  · intro h
    simp [verify_share_token, Ne.symm h]

/-- The wishlist object `c1row` loads into (items left empty). -/
def c1wish : Wishlist :=
  ⟨c1row.id, c1row.name, c1row.username, c1row.email, c1row.email_verified,
    c1row.owner_token, c1row.share_token, []⟩

/-- C1 witness: the amended claim at the concrete wishlist `c1wish`,
matching and non-matching token. -/
theorem verify_share_token_spec_witness :
    verify_share_token c1wish "share-tok".toList = .ok () ∧
    verify_share_token c1wish "wrong".toList = .error .invalidShareToken := by
  refine ⟨(verify_share_token_spec c1wish "share-tok".toList).1 (by decide),
    (verify_share_token_spec c1wish "wrong".toList).2 (by decide)⟩

/-! ## Claim C2 — the manage-token check and email verification -/

/-- C2: `verify_manage_token` rejects a wrong token with
`InvalidManageToken` and, being pure here, leaves every table as it was; on
the matching token with `email_verified` still false it succeeds, flipping
the flag on the returned wishlist and — persisted at once through
`mark_valid_email`, which commits — on every matching row of the `wishlist`
table; on a matching token with the flag already true it succeeds changing
nothing; and a second call on the first call's result changes nothing
more, so the flag is flipped exactly once and never reverts. -/
theorem verify_manage_token_spec (w : Wishlist) (t : Str) (db : WTable) :
    (t ≠ w.owner_token →
      verify_manage_token w t db = .error .invalidManageToken) ∧
    (t = w.owner_token → w.email_verified = false →
      verify_manage_token w t db =
        .ok ({ w with email_verified := true }, mark_valid_email db w.id) ∧
      ∀ r ∈ mark_valid_email db w.id, r.id = w.id →
        r.email_verified = true) ∧
    (t = w.owner_token → w.email_verified = true →
      verify_manage_token w t db = .ok (w, db)) ∧
    (t = w.owner_token →
      verify_manage_token { w with email_verified := true } t
          (mark_valid_email db w.id) =
        .ok ({ w with email_verified := true }, mark_valid_email db w.id)) := by
  refine ⟨?_, ?_, ?_, ?_⟩
  · intro h
    simp [verify_manage_token, Ne.symm h]
  · intro ht hv
    subst ht
    refine ⟨by simp [verify_manage_token, hv], ?_⟩
    intro r hr hid
    simp only [mark_valid_email, List.mem_map] at hr
    obtain ⟨r0, _, rfl⟩ := hr
    by_cases h0 : (r0.id == w.id) = true
    · simp [h0]
    · simp only [h0, if_false] at hid ⊢
      exact absurd (beq_iff_eq.mpr hid) h0
  · intro ht hv
    simp [verify_manage_token, ht, hv]
  · intro ht
    simp [verify_manage_token, ht]

/-- C2 witness: the concrete unverified wishlist `c1wish`, its owner token,
a one-row table: mismatch rejected, first success flips and persists the
flag, and a second call on the flipped state is a no-op. -/
theorem verify_manage_token_spec_witness :
    verify_manage_token c1wish "wrong".toList [c1row] =
      .error .invalidManageToken ∧
    verify_manage_token c1wish "owner-tok".toList [c1row] =
      .ok ({ c1wish with email_verified := true },
        [{ c1row with email_verified := true }]) ∧
    verify_manage_token { c1wish with email_verified := true }
        "owner-tok".toList [{ c1row with email_verified := true }] =
      .ok ({ c1wish with email_verified := true },
        [{ c1row with email_verified := true }]) := by
  have h := verify_manage_token_spec c1wish "owner-tok".toList [c1row]
  have h2 := verify_manage_token_spec c1wish "wrong".toList [c1row]
  refine ⟨h2.1 (by decide), ?_, ?_⟩
  · have h3 := (h.2.1 (by decide) (by decide)).1
    revert h3
    decide
  · have h3 := h.2.2.2 (by decide)
    revert h3
    decide

/-! ## Claim C3 — the reservation protocol of `mark_item` -/

/-- C3: `mark_item` loads the item first and fails when it is absent (the
not-found sentinel from `get_wishlist_item`); releasing with `g = false`
fails, touching nothing, unless the caller's session holds the claim, and
otherwise writes `gotten = false, getter = null`; `g = true`
unconditionally writes `gotten = true, getter = session` — overwriting any
prior claim, whoever held it — and the result is persisted through
`update_wishlist_item` and committed.  Re-marking an item the same session
already got writes back exactly the item it loaded, leaving the final
state `gotten = true, getter = session`. -/
theorem mark_item_spec (u : UModel) (t : ITable) (wid iid sid : Str)
    (g : Bool) :
    (get_wishlist_item u t wid iid = .ok none →
      mark_item u t wid iid sid g = .error .itemMissing) ∧
    (∀ item, get_wishlist_item u t wid iid = .ok (some item) →
      (g = false → item.getter ≠ some sid →
        mark_item u t wid iid sid g = .error .cannotModify) ∧
      (g = false → item.getter = some sid →
        mark_item u t wid iid sid g =
          .ok (update_wishlist_item t
            { item with gotten := false, getter := none })) ∧
      (g = true →
        mark_item u t wid iid sid g =
          .ok (update_wishlist_item t
            { item with gotten := true, getter := some sid })) ∧
      (g = true → item.gotten = true → item.getter = some sid →
        mark_item u t wid iid sid g = .ok (update_wishlist_item t item))) := by
  constructor
  · intro h
    simp [mark_item, h]
  · intro item h
    refine ⟨?_, ?_, ?_, ?_⟩
    · intro hg hget
      simp [mark_item, h, hg, hget]
    · intro hg hget
      simp [mark_item, h, hg, hget]
    · intro hg
      simp [mark_item, h, hg]
    · intro hg hgot hget
      have he : ({ item with gotten := true, getter := some sid } : WItem) =
          item := by
        obtain ⟨i1, i2, i3, i4, i5, i6⟩ := item
        have h5 : i5 = true := hgot
        have h6 : i6 = some sid := hget
        subst h5
        subst h6
        rfl
      rw [← he]
      simp [mark_item, h, hg]

/-- C3 witness: `mark_item` at the one-item table `c1items`: claiming the
unclaimed item with session `sess-1` writes `gotten = true,
getter = sess-1`; marking a missing item id fails; re-marking the claimed
item by the same session leaves it claimed by that session. -/
theorem mark_item_spec_witness :
    mark_item asciiU c1items c1row.id c1item.id "sess-1".toList true =
      .ok (update_wishlist_item c1items
        { c1item with gotten := true, getter := some "sess-1".toList }) ∧
    mark_item asciiU c1items c1row.id "nope".toList "sess-1".toList true =
      .error .itemMissing ∧
    mark_item asciiU
        [(c1row.id,
          { c1item with gotten := true, getter := some "sess-1".toList })]
        c1row.id c1item.id "sess-1".toList true =
      .ok (update_wishlist_item
        [(c1row.id,
          { c1item with gotten := true, getter := some "sess-1".toList })]
        { c1item with gotten := true, getter := some "sess-1".toList }) := by
  have h1 := mark_item_spec asciiU c1items c1row.id c1item.id
    "sess-1".toList true
  have h2 := mark_item_spec asciiU c1items c1row.id "nope".toList
    "sess-1".toList true
  have h3 := mark_item_spec asciiU
    [(c1row.id, { c1item with gotten := true, getter := some "sess-1".toList })]
    c1row.id c1item.id "sess-1".toList true
  refine ⟨(h1.2 c1item (by decide)).2.2.1 rfl, h2.1 (by decide), ?_⟩
  exact (h3.2 { c1item with gotten := true, getter := some "sess-1".toList }
    (by decide)).2.2.2 rfl (by decide) (by decide)

/-! ## Claim C7 — the `gotten`/`getter` invariant -/

/-- A well-formed item id for the constructor-violation example. -/
def c7id : Str := "cccccccc-cccc-4ccc-8ccc-cccccccccccc".toList

/-- The constructor call of the repository's own test
(`tests/test_wishlist.py::test_wishlist_item`): `gotten = False` together
with a non-null `getter` (url left empty here). -/
def c7item : Except Err WItem :=
  mkWishlistItem asciiU [] (some c7id) (some "test".toList) (some [])
    (some "test".toList) false (some "def".toList)

/-- C7 counterexample: that constructor call succeeds and returns an item
with `gotten = false` and `getter` non-null — the constructor stores both
fields verbatim and enforces no invariant between them, refuting the claim
for items produced by successful constructor calls. -/
theorem item_invariant_constructor_cex :
    c7item.map (fun i => (i.gotten, i.getter)) =
      .ok (false, some "def".toList) := by decide

/-- C7 (amended): after every successful `mark_item`, each row of the
resulting table either already stood in the table untouched or carries the
freshly written fields, which always satisfy the invariant: `getter`
non-null only when `gotten` is true, and `getter` null whenever `gotten`
is false.  (The constructor itself does not enforce the invariant: it
stores `gotten` and `getter` as given.) -/
theorem mark_item_invariant (u : UModel) (t : ITable) (wid iid sid : Str)
    (g : Bool) (t2 : ITable) (h : mark_item u t wid iid sid g = .ok t2) :
    ∀ r ∈ t2, r ∈ t ∨
      ((r.2.getter ≠ none → r.2.gotten = true) ∧
        (r.2.gotten = false → r.2.getter = none)) := by
  intro r hr
  unfold mark_item at h
  cases hget : get_wishlist_item u t wid iid with
  | error e => rw [hget] at h; cases h
  | ok o =>
    rw [hget] at h
    cases o with
    | none => cases h
    | some item =>
      simp only at h
      by_cases hoverall : g = false ∧ item.getter ≠ some sid
      · rw [if_pos hoverall] at h; cases h
      · rw [if_neg hoverall] at h
        by_cases hrel : g = false ∧ item.getter = some sid
        · rw [if_pos hrel] at h
          cases h
          simp only [update_wishlist_item, List.mem_map] at hr
          obtain ⟨r0, hr0, rfl⟩ := hr
          by_cases hid : (r0.2.id == item.id) = true
          · right
            simp [hid]
          · simp only [hid, if_false]
            exact Or.inl hr0
        · rw [if_neg hrel] at h
          cases h
          simp only [update_wishlist_item, List.mem_map] at hr
          obtain ⟨r0, hr0, rfl⟩ := hr
          by_cases hid : (r0.2.id == item.id) = true
          · right
            simp [hid]
          · simp only [hid, if_false]
            exact Or.inl hr0

/-- The row a successful claim-overwrite of `c1item` by session `sess-1`
leaves in the table. -/
def c7row : Str × WItem :=
  (c1row.id, { c1item with gotten := true, getter := some "sess-1".toList })

/-- C7 witness: the amended claim at the concrete claim-overwrite of the
C3 scenario, instantiated at the row the operation wrote. -/
theorem mark_item_invariant_witness :
    c7row ∈ c1items ∨
      ((c7row.2.getter ≠ none → c7row.2.gotten = true) ∧
        (c7row.2.gotten = false → c7row.2.getter = none)) :=
  mark_item_invariant asciiU c1items c1row.id c1item.id "sess-1".toList true
    (update_wishlist_item c1items
      { c1item with gotten := true, getter := some "sess-1".toList })
    (by decide) c7row (by decide)

/-! ## Claim C4 — round-tripping through the store -/

/-- A successfully constructed `Wishlist` carries an email the validator
accepted. -/
theorem mkWishlist_ok_is_email {u : UModel} {fid fot fst : Str}
    {idA nA unA eA : Option Str} {ev : Bool} {otA stA : Option Str}
    {w : Wishlist}
    (h : mkWishlist u fid fot fst idA nA unA eA ev otA stA = .ok w) :
    is_email u w.email = true := by
  cases nA with
  | none => exact Except.noConfusion h
  | some n =>
    cases unA with
    | none => exact Except.noConfusion h
    | some un =>
      cases eA with
      | none => exact Except.noConfusion h
      | some e =>
        simp only [mkWishlist] at h
        by_cases he : is_email u e = true
        · rw [if_pos he] at h
          cases hri : resolveId fid idA with
          | error er =>
            rw [hri] at h
            exact Except.noConfusion h
          | ok theId =>
            simp only [hri] at h
            cases h
            exact he
        · rw [if_neg he] at h
          exact Except.noConfusion h

/-- `resolveId` hands back an id that is empty (the falsy branch redraws
`[]` here) or already in canonical form. -/
theorem resolveId_self (s : Str)
    (h : s.isEmpty = true ∨ pyUUIDparse s = some s) :
    resolveId [] (some s) = .ok s := by
  simp only [resolveId]
  by_cases hemp : s.isEmpty = true
  · rw [if_pos hemp, List.isEmpty_iff.mp hemp]
  · rw [if_neg hemp]
    rcases h with h | h
    · exact absurd h hemp
    · simp only [h]

/-- `resolveToken` with an empty fresh value returns the stored token
whether or not it is empty. -/
theorem resolveToken_self (s : Str) : resolveToken [] (some s) = s := by
  simp only [resolveToken]
  by_cases hemp : s.isEmpty = true
  · rw [if_pos hemp, List.isEmpty_iff.mp hemp]
  · rw [if_neg hemp]

/-- Evaluating the `wishlist_factory` reconstruction of a stored row whose
email the validator accepts. -/
theorem mkWishlist_reload (u : UModel) (w : Wishlist)
    (hemail : is_email u w.email = true)
    (hid : w.id.isEmpty = true ∨ pyUUIDparse w.id = some w.id) :
    mkWishlist u [] [] [] (some w.id) (some w.name) (some w.username)
        (some w.email) false (some w.owner_token) (some w.share_token) =
      .ok ⟨w.id, normalize_words u w.name, normalize_words u w.username,
        w.email, false, w.owner_token, w.share_token, []⟩ := by
  simp only [mkWishlist, resolveId_self w.id hid, resolveToken_self,
    if_pos hemail]

/-- Evaluating the `wishitem_factory` reconstruction of a stored item row
whose id parses back to itself and whose url resolves. -/
theorem row_to_item_eval (u : UModel) (r : WItem) (url2 : Str)
    (hid : r.id.isEmpty = true ∨ pyUUIDparse r.id = some r.id)
    (hurl : resolveUrl u (some r.url) = .ok url2) :
    row_to_item u r =
      .ok ⟨r.id, normalize_words u r.name, url2,
        normalize_words u r.description, r.gotten, r.getter⟩ := by
  simp only [row_to_item, mkWishlistItem, resolveId_self r.id hid, hurl]

/-- C4 counterexample: a `Wishlist` built by the constructor from valid
inputs with `email_verified = true`, stored with `add_wishlist` and read
back with `get_wishlist`, comes back with `email_verified = false` — the
INSERT never writes that column, so the field does not survive the round
trip. -/
theorem store_roundtrip_cex :
    (mkWishlist asciiU [] [] []
        (some "dddddddd-dddd-4ddd-8ddd-dddddddddddd".toList)
        (some "n".toList) (some "u".toList) (some "a@b.cd".toList) true
        (some "t-own".toList) (some "t-shr".toList)).map
      (fun w => (w.email_verified,
        (get_wishlist asciiU (add_wishlist [] w) [] w.id).map
          Wishlist.email_verified)) = .ok (true, .ok false) := by decide

/-- C4 (amended): storing a constructor-built `Wishlist` and reading it
back yields `id`, `email`, `owner_token` and `share_token` unchanged,
`name` and `username` re-normalised (equal whenever already fixed under
`normalize_words`), `items` freshly loaded — and `email_verified` always
false, since `add_wishlist` omits that column from its INSERT; likewise a
stored item row read back through `get_wishlist_item` keeps `id`, `gotten`
and `getter`, re-normalises `name` and `description` and re-resolves a
non-empty `url`. -/
theorem store_roundtrip (u : UModel) (fid fot fst : Str)
    (idA nA unA eA : Option Str) (ev : Bool) (otA stA : Option Str)
    (w : Wishlist) (wt : WTable) (it : ITable) (loaded : List WItem)
    (hw : mkWishlist u fid fot fst idA nA unA eA ev otA stA = .ok w)
    (hid : w.id.isEmpty = true ∨ pyUUIDparse w.id = some w.id)
    (hne : w.email ≠ "<>".toList)
    (hfresh : ∀ r ∈ wt, r.id ≠ w.id)
    (hload : get_wishlist_items u it w.id = .ok loaded)
    (it0 : ITable) (wid : Str) (itm : WItem) (url2 : Str)
    (hiid : itm.id.isEmpty = true ∨ pyUUIDparse itm.id = some itm.id)
    (hurl : resolveUrl u (some itm.url) = .ok url2)
    (hfresh2 : ∀ r ∈ it0, ¬(r.2.id = itm.id ∧ r.1 = wid)) :
    get_wishlist u (add_wishlist wt w) it w.id =
      .ok ⟨w.id, normalize_words u w.name, normalize_words u w.username,
        w.email, false, w.owner_token, w.share_token, loaded⟩ ∧
    get_wishlist_item u (add_items it0 wid [itm]) wid itm.id =
      .ok (some ⟨itm.id, normalize_words u itm.name, url2,
        normalize_words u itm.description, itm.gotten, itm.getter⟩) := by
  constructor
  · have hf1 : wt.find? (fun r => r.id == w.id) = none := by
      apply List.find?_eq_none.mpr
      intro r hr
      simpa using hfresh r hr
    have hf : (add_wishlist wt w).find? (fun r => r.id == w.id) =
        some ⟨w.id, w.name, w.username, w.get_addr, false, w.owner_token,
          w.share_token⟩ := by
      unfold add_wishlist
      rw [List.find?_append, hf1]
      simp [List.find?]
    have haddr : w.get_addr = w.email := by
      unfold Wishlist.get_addr
      rw [if_neg hne]
    simp only [get_wishlist, hf, haddr,
      mkWishlist_reload u w (mkWishlist_ok_is_email hw) hid, hload]
  · have hf1 : it0.find? (fun r => r.2.id == itm.id && r.1 == wid) = none := by
      apply List.find?_eq_none.mpr
      intro r hr
      simpa using fun h1 h2 => hfresh2 r hr ⟨h1, h2⟩
    have hf : (add_items it0 wid [itm]).find?
        (fun r => r.2.id == itm.id && r.1 == wid) = some (wid, itm) := by
      unfold add_items
      rw [List.find?_append, hf1]
      simp [List.find?]
    simp only [get_wishlist_item, hf, row_to_item_eval u itm url2 hiid hurl]

/-- C4 witness: the amended round trip at a concrete constructor-built
wishlist and item over `asciiU`, all hypotheses discharged by
computation. -/
theorem store_roundtrip_witness :
    get_wishlist asciiU
        (add_wishlist []
          ⟨"dddddddd-dddd-4ddd-8ddd-dddddddddddd".toList, "n".toList,
            "u".toList, "a@b.cd".toList, true, "t-own".toList,
            "t-shr".toList, []⟩)
        [] "dddddddd-dddd-4ddd-8ddd-dddddddddddd".toList =
      .ok ⟨"dddddddd-dddd-4ddd-8ddd-dddddddddddd".toList, "n".toList,
        "u".toList, "a@b.cd".toList, false, "t-own".toList, "t-shr".toList,
        []⟩ ∧
    get_wishlist_item asciiU
        (add_items [] "dddddddd-dddd-4ddd-8ddd-dddddddddddd".toList
          [⟨c7id, "gift".toList, [], "d".toList, true, some "s1".toList⟩])
        "dddddddd-dddd-4ddd-8ddd-dddddddddddd".toList c7id =
      .ok (some ⟨c7id, "gift".toList, [], "d".toList, true,
        some "s1".toList⟩) := by
  have h := store_roundtrip asciiU [] [] []
    (some "dddddddd-dddd-4ddd-8ddd-dddddddddddd".toList) (some "n".toList)
    (some "u".toList) (some "a@b.cd".toList) true (some "t-own".toList)
    (some "t-shr".toList)
    ⟨"dddddddd-dddd-4ddd-8ddd-dddddddddddd".toList, "n".toList, "u".toList,
      "a@b.cd".toList, true, "t-own".toList, "t-shr".toList, []⟩
    [] [] [] (by decide) (by decide) (by decide) (by decide) (by decide)
    [] "dddddddd-dddd-4ddd-8ddd-dddddddddddd".toList
    ⟨c7id, "gift".toList, [], "d".toList, true, some "s1".toList⟩ []
    (by decide) (by decide) (by decide)
  revert h
  decide

end WishlistPy
